import Mathlib

/-!
Verification development for the `books` repository (a paginated-story
scraper `literotica_extract.py` and a PDF-to-EPUB converter
`pdf_to_epub.py`).  The Python sources are shallowly embedded: pure string
helpers become Lean functions on `String`/`List Char`, the network and the
filesystem become explicit oracles (`String → Except String _`, write-
permission flags), and the `while current_url:` crawl loop becomes a
fuel-indexed recursion whose `fuelOut` outcome marks a loop still running
after the given number of iterations.  Logging is side-effect-only in the
source and is not modelled.
-/

namespace Books

/-- Classification of characters as Python whitespace (`str.rstrip`,
`str.strip`, and the regex class `\s`).  The six ASCII whitespace
characters are covered; non-ASCII Unicode spaces (which no claim here
touches) are classified as non-whitespace. -/
def pyIsSpace (c : Char) : Bool :=
  c == ' ' || c == '\t' || c == '\n' || c == '\x0b' || c == '\x0c' || c == '\r'

/-- Classification of characters as Python alphanumeric (`str.isalnum`).
Exact for every code point below 0x100: ASCII letters and digits, plus the
Latin-1 alphanumerics ª ² ³ µ ¹ º ¼ ½ ¾ and the accented letters in
U+00C0..U+00FF other than × and ÷.  Code points at 0x100 and above are
conservatively classified non-alphanumeric; no settled claim depends on
them. -/
def pyIsAlnum (c : Char) : Bool :=
  c.isAlphanum ||
    (c.toNat == 0xAA || c.toNat == 0xB2 || c.toNat == 0xB3 || c.toNat == 0xB5 ||
     c.toNat == 0xB9 || c.toNat == 0xBA ||
     (0xBC ≤ c.toNat && c.toNat ≤ 0xBE) ||
     (0xC0 ≤ c.toNat && c.toNat ≤ 0xFF && c.toNat ≠ 0xD7 && c.toNat ≠ 0xF7))

/-- Drop trailing whitespace from a character list (Python `str.rstrip`). -/
def pyRstripData (l : List Char) : List Char :=
  (l.reverse.dropWhile pyIsSpace).reverse

/-- Drop leading and trailing whitespace (Python `str.strip`). -/
def pyStrip (s : String) : String :=
  String.mk (pyRstripData (s.data.dropWhile pyIsSpace))

/-- Character filter used by `sanitize_filename`:
`c.isalnum() or c in (' ', '_', '-')` in the source. -/
def keepFilenameChar (c : Char) : Bool :=
  pyIsAlnum c || c == ' ' || c == '_' || c == '-'

/-- Embedding of `sanitize_filename` (literotica_extract.py lines 114-126):
`"".join(c for c in name if c.isalnum() or c in (' ', '_', '-')).rstrip()`. -/
def sanitize_filename (name : String) : String :=
  String.mk (pyRstripData (name.data.filter keepFilenameChar))

/-! Basic lemmas about the sanitizer. -/

theorem dropWhile_idem (p : Char → Bool) (l : List Char) :
    (l.dropWhile p).dropWhile p = l.dropWhile p := by
  induction l with
  | nil => rfl
  | cons c t ih =>
    by_cases h : p c
    · simp [List.dropWhile_cons, h, ih]
    · simp [List.dropWhile_cons, h]

theorem mem_pyRstripData {c : Char} {l : List Char} (h : c ∈ pyRstripData l) :
    c ∈ l := by
  unfold pyRstripData at h
  rw [List.mem_reverse] at h
  have := (List.dropWhile_sublist (p := pyIsSpace) (l := l.reverse)).subset h
  simpa [List.mem_reverse] using this

theorem pyRstripData_idem (l : List Char) :
    pyRstripData (pyRstripData l) = pyRstripData l := by
  unfold pyRstripData
  rw [List.reverse_reverse, dropWhile_idem]

theorem head?_dropWhile_not (p : Char → Bool) (l : List Char) :
    ∀ c, (l.dropWhile p).head? = some c → p c = false := by
  induction l with
  | nil => intro c h; simp at h
  | cons a t ih =>
    intro c h
    by_cases hp : p a
    · rw [List.dropWhile_cons, if_pos hp] at h
      exact ih c h
    · rw [List.dropWhile_cons, if_neg hp] at h
      simp only [List.head?_cons, Option.some.injEq] at h
      subst h
      exact Bool.eq_false_iff.mpr hp

theorem getLast?_pyRstripData (l : List Char) :
    ∀ c, (pyRstripData l).getLast? = some c → pyIsSpace c = false := by
  intro c h
  unfold pyRstripData at h
  rw [List.getLast?_reverse] at h
  exact head?_dropWhile_not pyIsSpace l.reverse c h

/-- Character set the spec claims for sanitizer output: `[A-Za-z0-9 _-]`
(ASCII alphanumerics — `Char.isAlphanum` — plus space, underscore and
hyphen).  Stated from the spec's words, to be compared with what
`sanitize_filename` actually preserves. -/
def inSpecSafeSet (c : Char) : Bool :=
  c.isAlphanum || c == ' ' || c == '_' || c == '-'

/-- C7: the filename sanitizer is idempotent — for every string `s`,
`sanitize_filename (sanitize_filename s) = sanitize_filename s`. -/
theorem sanitize_filename_idempotent (s : String) :
    sanitize_filename (sanitize_filename s) = sanitize_filename s := by
  unfold sanitize_filename
  have hfilter : (pyRstripData (s.data.filter keepFilenameChar)).filter keepFilenameChar
      = pyRstripData (s.data.filter keepFilenameChar) :=
    List.filter_eq_self.mpr (fun a ha => List.of_mem_filter (mem_pyRstripData ha))
  show String.mk (pyRstripData ((pyRstripData (s.data.filter keepFilenameChar)).filter
      keepFilenameChar)) = String.mk (pyRstripData (s.data.filter keepFilenameChar))
  rw [hfilter, pyRstripData_idem]

/-- C8 counterexample: Python's `str.isalnum` is Unicode-aware, so
`sanitize_filename` keeps the letter `é` (U+00E9), which is outside the
claimed character set `[A-Za-z0-9 _-]`. -/
theorem sanitize_charset_counterexample :
    sanitize_filename "é" = "é" ∧
    'é' ∈ (sanitize_filename "é").data ∧
    inSpecSafeSet 'é' = false := by decide

/-- C8 (amended): every character of `sanitize_filename s` is alphanumeric
in Python's sense (`pyIsAlnum`) or one of space, underscore, hyphen, and
the output has no trailing whitespace. -/
theorem sanitize_output_chars (s : String) :
    (∀ c ∈ (sanitize_filename s).data, keepFilenameChar c = true) ∧
    (∀ c, (sanitize_filename s).data.getLast? = some c → pyIsSpace c = false) := by
  constructor
  · intro c hc
    exact List.of_mem_filter (mem_pyRstripData hc)
  · intro c hc
    exact getLast?_pyRstripData _ c hc

/-- Witness for C8's amended theorem at the concrete input `"ab "`. -/
theorem sanitize_output_chars_witness :
    keepFilenameChar 'a' = true ∧ pyIsSpace 'b' = false :=
  ⟨(sanitize_output_chars "ab ").1 'a' (by decide),
   (sanitize_output_chars "ab ").2 'b' (by decide)⟩

/-!
Parsed-page model.  A fetched page is consumed only through
`extract_story_text`, `find_next_page` and `extract_title`, so a parsed
document (`BeautifulSoup` object) is embedded as the three landmarks those
functions look up: the story `div`'s paragraph texts (absent when the
`div` is missing), the pagination `div` with its optional Next-Page link
`href`, and the title `h1`'s text.
-/

structure Soup where
  storyParas : Option (List String)
  paginationDiv : Option (Option String)
  titleTag : Option String
  deriving DecidableEq

/-- Prefix test on strings, computed on the underlying character lists
(`String.startsWith` itself does not reduce inside the kernel). -/
def strHasPrefix (s pre : String) : Bool :=
  pre.data.isPrefixOf s.data

/-- Embedding of `urllib.parse.urljoin` with base
`"https://www.literotica.com"`, for the href shapes relevant here: an
absolute URL is returned unchanged and a root-relative path is attached to
the site root; any other shape is resolved naively by concatenation (no
claim depends on that case). -/
def urljoin (base href : String) : String :=
  if strHasPrefix href "https://" || strHasPrefix href "http://" then href
  else if strHasPrefix href "/" then "https://www.literotica.com" ++ href
  else base ++ href

/-- Embedding of `extract_story_text` (lines 55-72): paragraphs of the
story `div`, each stripped (`get_text(strip=True)`), joined with blank
lines; the empty string when the story `div` is missing. -/
def extract_story_text (s : Soup) : String :=
  match s.storyParas with
  | none => ""
  | some ps => String.intercalate "\n\n" (ps.map pyStrip)

/-- Embedding of `find_next_page` (lines 74-94): `none` when the
pagination `div` is missing or holds no Next-Page link, otherwise the
link's href resolved against the site root. -/
def find_next_page (s : Soup) : Option String :=
  match s.paginationDiv with
  | none => none
  | some none => none
  | some (some href) => some (urljoin "https://www.literotica.com" href)

/-- Embedding of `extract_title` (lines 96-112): the stripped title text,
or the fallback `"Untitled Story"` when the title tag is missing. -/
def extract_title (s : Soup) : String :=
  match s.titleTag with
  | some t => pyStrip t
  | none => "Untitled Story"

/-!
Crawl loop.  `main`'s `while current_url:` loop (lines 316-323) fetches
`current_url`, appends the extracted text plus a blank line to
`full_story`, and replaces `current_url` by `find_next_page`'s result.
The network is an oracle `String → Except String Soup` (`.error` models a
raised `requests.RequestException`, which `get_page` logs and re-raises).
The recursion is indexed by fuel: reaching `fuelOut` means the loop was
still running after that many iterations.  `pages` (in-order
`(url, body)` pairs) and `attempts` (every URL handed to `get_page` by
the loop) are ghost instrumentation of the accumulation; the source keeps
only `full_story` and `page_num`.
-/

structure CrawlAcc where
  fullStory : String
  pages : List (String × String)
  attempts : List String
  deriving DecidableEq

inductive CrawlResult where
  | done (acc : CrawlAcc)
  | fetchFail (acc : CrawlAcc) (failedUrl : String)
  | fuelOut (acc : CrawlAcc)
  deriving DecidableEq

/-- Accumulation performed by one loop iteration on a successfully
fetched page: `full_story += page_text + "\n\n"` plus the ghost
bookkeeping. -/
def stepAcc (acc : CrawlAcc) (url : String) (soup : Soup) : CrawlAcc :=
  { fullStory := acc.fullStory ++ extract_story_text soup ++ "\n\n"
    pages := acc.pages ++ [(url, extract_story_text soup)]
    attempts := acc.attempts ++ [url] }

/-- Embedding of the `while current_url:` loop of `main`.  A next URL
equal to `""` would be falsy in Python and ends the loop; `none` ends it;
otherwise the loop continues on the next URL. -/
def crawlLoop (fetch : String → Except String Soup) :
    Nat → String → CrawlAcc → CrawlResult
  | 0, _, acc => .fuelOut acc
  | fuel + 1, url, acc =>
    match fetch url with
    | .error _ => .fetchFail { acc with attempts := acc.attempts ++ [url] } url
    | .ok soup =>
      match find_next_page soup with
      | none => .done (stepAcc acc url soup)
      | some u =>
        if u = "" then .done (stepAcc acc url soup)
        else crawlLoop fetch fuel u (stepAcc acc url soup)

/-- Initial accumulator of the crawl: `full_story = ""`, no pages yet. -/
def initAcc : CrawlAcc := ⟨"", [], []⟩

/-! Unfolding lemmas for `crawlLoop`. -/

theorem crawlLoop_zero (fetch : String → Except String Soup) (url : String) (acc : CrawlAcc) :
    crawlLoop fetch 0 url acc = .fuelOut acc := rfl

theorem crawlLoop_succ_error (fetch : String → Except String Soup) (n : Nat) (url : String)
    (acc : CrawlAcc) (e : String) (hf : fetch url = .error e) :
    crawlLoop fetch (n + 1) url acc =
      .fetchFail { acc with attempts := acc.attempts ++ [url] } url := by
  simp [crawlLoop, hf]

theorem crawlLoop_succ_ok_none (fetch : String → Except String Soup) (n : Nat) (url : String)
    (acc : CrawlAcc) (soup : Soup) (hf : fetch url = .ok soup)
    (hn : find_next_page soup = none) :
    crawlLoop fetch (n + 1) url acc = .done (stepAcc acc url soup) := by
  simp [crawlLoop, hf, hn]

theorem crawlLoop_succ_ok_some (fetch : String → Except String Soup) (n : Nat) (url u : String)
    (acc : CrawlAcc) (soup : Soup) (hf : fetch url = .ok soup)
    (hn : find_next_page soup = some u) (hu : u ≠ "") :
    crawlLoop fetch (n + 1) url acc = crawlLoop fetch n u (stepAcc acc url soup) := by
  simp [crawlLoop, hf, hn, hu]

theorem crawlLoop_succ_ok_empty (fetch : String → Except String Soup) (n : Nat) (url : String)
    (acc : CrawlAcc) (soup : Soup) (hf : fetch url = .ok soup)
    (hn : find_next_page soup = some "") :
    crawlLoop fetch (n + 1) url acc = .done (stepAcc acc url soup) := by
  simp [crawlLoop, hf, hn]

/-- A crawl that reaches a page whose next link is the page's own URL
never finishes: every amount of fuel is exhausted, one more page being
accumulated per iteration.  This is the loop as written — it has no
self-link comparison. -/
theorem selfLink_fuelOut (fetch : String → Except String Soup) (url : String) (s : Soup)
    (hok : fetch url = .ok s) (hnext : find_next_page s = some url) (hne : url ≠ "") :
    ∀ fuel acc, ∃ acc', crawlLoop fetch fuel url acc = .fuelOut acc' ∧
      acc'.pages.length = acc.pages.length + fuel := by
  intro fuel
  induction fuel with
  | zero => intro acc; exact ⟨acc, rfl, by simp⟩
  | succ n ih =>
    intro acc
    obtain ⟨acc', h1, h2⟩ := ih (stepAcc acc url s)
    refine ⟨acc', ?_, ?_⟩
    · rw [crawlLoop_succ_ok_some fetch n url url acc s hok hnext hne]
      exact h1
    · simp only [stepAcc, List.length_append, List.length_cons, List.length_nil] at h2
      omega

/-- Concrete self-referential page used to falsify C1. -/
def selfUrl : String := "https://www.literotica.com/s/self-loop"

/-- Network oracle: every URL resolves to a page whose Next-Page link is
`selfUrl` itself. -/
def fetchSelf : String → Except String Soup :=
  fun _ => .ok ⟨some ["Body text"], some (some selfUrl), some "Self Loop"⟩

/-- C1 counterexample: with page 1's next link pointing at page 1 itself
(`fetchSelf`/`selfUrl`), the crawl loop never reaches `done` — in
particular it does not stop at page 1 with exactly 1 page; after 2
iterations it has already fetched the page twice and accumulated 2
pages. -/
theorem crawl_self_link_claim_false :
    (¬ ∃ fuel acc, crawlLoop fetchSelf fuel selfUrl initAcc = .done acc) ∧
    crawlLoop fetchSelf 2 selfUrl initAcc =
      .fuelOut ⟨"Body text\n\nBody text\n\n",
        [(selfUrl, "Body text"), (selfUrl, "Body text")], [selfUrl, selfUrl]⟩ := by
  constructor
  · rintro ⟨fuel, acc, h⟩
    obtain ⟨acc', h1, -⟩ :=
      selfLink_fuelOut fetchSelf selfUrl ⟨some ["Body text"], some (some selfUrl), some "Self Loop"⟩
        rfl (by decide) (by decide) fuel initAcc
    exact CrawlResult.noConfusion (h.symm.trans h1)
  · decide

/-- C1 (amended): the crawl loop contains no cycle-of-one guard — it
stops only when `find_next_page` yields no (truthy) URL.  When a page's
next link is the page's own URL, the loop never terminates: for every
fuel bound it is still running, having refetched the page once per
iteration and accumulated one more page each time. -/
theorem crawl_self_link_never_terminates (fetch : String → Except String Soup)
    (url : String) (s : Soup) (fuel : Nat) (acc : CrawlAcc)
    (hok : fetch url = .ok s) (hnext : find_next_page s = some url) (hne : url ≠ "") :
    ∃ acc', crawlLoop fetch fuel url acc = .fuelOut acc' ∧
      acc'.pages.length = acc.pages.length + fuel :=
  selfLink_fuelOut fetch url s hok hnext hne fuel acc

/-- Witness for C1's amended theorem at the concrete self-loop site. -/
theorem crawl_self_link_never_terminates_witness :
    ∃ acc', crawlLoop fetchSelf 3 selfUrl initAcc = .fuelOut acc' ∧
      acc'.pages.length = initAcc.pages.length + 3 :=
  crawl_self_link_never_terminates fetchSelf selfUrl
    ⟨some ["Body text"], some (some selfUrl), some "Self Loop"⟩ 3 initAcc
    rfl (by decide) (by decide)

/-!
Shape of the accumulated `full_story`.  The loop appends
`page_text + "\n\n"` for every page, so the final text is the
concatenation of each body followed by a blank-line separator —
including one after the last body.  `joinBlankSep` is the join the spec
describes (separator only between consecutive pages); the two differ by
exactly the trailing separator.
-/

/-- Concatenation of bodies, each followed by the blank-line separator —
what the accumulation `full_story += page_text + "\n\n"` produces. -/
def concatTrail : List String → String
  | [] => ""
  | b :: bs => b ++ "\n\n" ++ concatTrail bs

/-- Join with a single blank-line separator between consecutive elements
and no leading or trailing separator — the spec's description of
`fullText`. -/
def joinBlankSep : List String → String
  | [] => ""
  | [b] => b
  | b :: b2 :: bs => b ++ "\n\n" ++ joinBlankSep (b2 :: bs)

theorem concatTrail_eq_joinBlankSep (bs : List String) (h : bs ≠ []) :
    concatTrail bs = joinBlankSep bs ++ "\n\n" := by
  induction bs with
  | nil => exact absurd rfl h
  | cons b t ih =>
    cases t with
    | nil => simp [concatTrail, joinBlankSep, String.append_empty]
    | cons b2 t2 =>
      rw [concatTrail, joinBlankSep, ih (by simp)]
      simp [String.append_assoc]

/-- Invariant of the crawl loop: a `done` outcome extends the incoming
accumulator by a non-empty run of pages whose first page is the entry
URL; `full_story` grows by the bodies, each followed by the blank-line
separator; the attempts are exactly the page URLs. -/
theorem crawlLoop_done_ext (fetch : String → Except String Soup) :
    ∀ fuel url acc acc', crawlLoop fetch fuel url acc = .done acc' →
      ∃ ps : List (String × String), ps ≠ [] ∧ ps.head?.map Prod.fst = some url ∧
        acc'.pages = acc.pages ++ ps ∧
        acc'.attempts = acc.attempts ++ ps.map Prod.fst ∧
        acc'.fullStory = acc.fullStory ++ concatTrail (ps.map Prod.snd) := by
  intro fuel
  induction fuel with
  | zero =>
    intro url acc acc' h
    exact CrawlResult.noConfusion h
  | succ n ih =>
    intro url acc acc' h
    cases hf : fetch url with
    | error e =>
      rw [crawlLoop_succ_error fetch n url acc e hf] at h
      exact CrawlResult.noConfusion h
    | ok soup =>
      have single : ∀ hdone : stepAcc acc url soup = acc',
          ∃ ps : List (String × String), ps ≠ [] ∧ ps.head?.map Prod.fst = some url ∧
            acc'.pages = acc.pages ++ ps ∧
            acc'.attempts = acc.attempts ++ ps.map Prod.fst ∧
            acc'.fullStory = acc.fullStory ++ concatTrail (ps.map Prod.snd) := by
        intro hdone
        refine ⟨[(url, extract_story_text soup)], by simp, by simp, ?_, ?_, ?_⟩ <;>
          simp [← hdone, stepAcc, concatTrail, String.append_empty, String.append_assoc]
      cases hn : find_next_page soup with
      | none =>
        rw [crawlLoop_succ_ok_none fetch n url acc soup hf hn] at h
        exact single (CrawlResult.done.inj h)
      | some u =>
        by_cases hu : u = ""
        · subst hu
          rw [crawlLoop_succ_ok_empty fetch n url acc soup hf hn] at h
          exact single (CrawlResult.done.inj h)
        · rw [crawlLoop_succ_ok_some fetch n url u acc soup hf hn hu] at h
          obtain ⟨ps, hne, hhead, hp, ha, hfs⟩ := ih u (stepAcc acc url soup) acc' h
          refine ⟨(url, extract_story_text soup) :: ps, by simp, by simp, ?_, ?_, ?_⟩
          · rw [hp]; simp [stepAcc]
          · rw [ha]; simp [stepAcc]
          · rw [hfs]; simp [stepAcc, concatTrail, String.append_assoc]

/-- A finished crawl took at least one page. -/
theorem crawlLoop_done_pages_ne_nil (fetch : String → Except String Soup)
    (fuel : Nat) (url : String) (acc acc' : CrawlAcc)
    (h : crawlLoop fetch fuel url acc = .done acc') : acc'.pages ≠ [] := by
  obtain ⟨ps, hne, -, hp, -, -⟩ := crawlLoop_done_ext fetch fuel url acc acc' h
  rw [hp]
  simp [hne]

/-- One-page site used to falsify C2's "no trailing separator". -/
def oneUrl : String := "https://www.literotica.com/s/one-page"

/-- Network oracle: a single page with body `"Alpha"` and no pagination
`div`. -/
def fetchOne : String → Except String Soup :=
  fun _ => .ok ⟨some ["Alpha"], none, some "One"⟩

/-- C2 counterexample: crawling the one-page site accumulates
`full_story = "Alpha\n\n"`, which carries a trailing blank-line separator
and therefore differs from the separator-only-between-pages join
`joinBlankSep ["Alpha"] = "Alpha"`. -/
theorem crawl_fullStory_claim_false :
    crawlLoop fetchOne 1 oneUrl initAcc =
      .done ⟨"Alpha\n\n", [(oneUrl, "Alpha")], [oneUrl]⟩ ∧
    "Alpha\n\n" ≠ joinBlankSep ["Alpha"] := by decide

/-- C2 (amended): on every successfully completed crawl, `full_story` is
the concatenation of the page bodies in page order, each followed by one
blank-line separator — equivalently, the bodies joined with blank-line
separators plus one trailing separator.  (The claim's "no trailing
separator" fails; everything else holds.) -/
theorem crawl_fullStory_trailing_join (fetch : String → Except String Soup)
    (fuel : Nat) (start : String) (acc : CrawlAcc)
    (h : crawlLoop fetch fuel start initAcc = .done acc) :
    acc.pages ≠ [] ∧
    acc.fullStory = concatTrail (acc.pages.map Prod.snd) ∧
    acc.fullStory = joinBlankSep (acc.pages.map Prod.snd) ++ "\n\n" := by
  obtain ⟨ps, hne, -, hp, -, hfs⟩ := crawlLoop_done_ext fetch fuel start initAcc acc h
  have hps : acc.pages = ps := by rw [hp]; simp [initAcc]
  have hstory : acc.fullStory = concatTrail (ps.map Prod.snd) := by
    rw [hfs]
    simp [initAcc]
  refine ⟨by simp [hps, hne], by rw [hps]; exact hstory, ?_⟩
  rw [hps, hstory, concatTrail_eq_joinBlankSep]
  simp [hne]

/-- Witness for C2's amended theorem at the concrete one-page site. -/
theorem crawl_fullStory_trailing_join_witness :
    ([(oneUrl, "Alpha")] : List (String × String)) ≠ [] ∧
    "Alpha\n\n" = concatTrail (([(oneUrl, "Alpha")] : List (String × String)).map Prod.snd) ∧
    "Alpha\n\n" = joinBlankSep (([(oneUrl, "Alpha")] : List (String × String)).map Prod.snd)
      ++ "\n\n" :=
  crawl_fullStory_trailing_join fetchOne 1 oneUrl ⟨"Alpha\n\n", [(oneUrl, "Alpha")], [oneUrl]⟩
    (by decide)

/-- Invariant of the crawl loop: a `fetchFail` outcome means the failed
URL's fetch raised, the loop's attempts are a run of successfully fetched
URLs followed by the single failed attempt (nothing after it — no
retry), and the run began at the entry URL. -/
theorem crawlLoop_fetchFail_ext (fetch : String → Except String Soup) :
    ∀ fuel url acc acc' u, crawlLoop fetch fuel url acc = .fetchFail acc' u →
      (∃ e, fetch u = .error e) ∧
      ∃ pre : List String, acc'.attempts = acc.attempts ++ pre ++ [u] ∧
        (pre ++ [u]).head? = some url ∧
        (∀ v ∈ pre, ∃ s, fetch v = .ok s) := by
  intro fuel
  induction fuel with
  | zero =>
    intro url acc acc' u h
    exact CrawlResult.noConfusion h
  | succ n ih =>
    intro url acc acc' u h
    cases hf : fetch url with
    | error e =>
      rw [crawlLoop_succ_error fetch n url acc e hf] at h
      obtain ⟨ha, hu⟩ := CrawlResult.fetchFail.inj h
      subst hu
      refine ⟨⟨e, hf⟩, [], ?_, by simp, by simp⟩
      rw [← ha]
      simp
    | ok soup =>
      cases hn : find_next_page soup with
      | none =>
        rw [crawlLoop_succ_ok_none fetch n url acc soup hf hn] at h
        exact CrawlResult.noConfusion h
      | some v =>
        by_cases hv : v = ""
        · subst hv
          rw [crawlLoop_succ_ok_empty fetch n url acc soup hf hn] at h
          exact CrawlResult.noConfusion h
        · rw [crawlLoop_succ_ok_some fetch n url v acc soup hf hn hv] at h
          obtain ⟨he, pre, hatt, -, hpre⟩ := ih v (stepAcc acc url soup) acc' u h
          refine ⟨he, url :: pre, ?_, by simp, ?_⟩
          · rw [hatt]; simp [stepAcc]
          · intro w hw
            rcases List.mem_cons.mp hw with hw | hw
            · exact ⟨soup, hw ▸ hf⟩
            · exact hpre w hw

/-- A `done` crawl starts with a successful fetch of the entry URL. -/
theorem crawlLoop_done_fetch_ok (fetch : String → Except String Soup)
    (fuel : Nat) (url : String) (acc acc' : CrawlAcc)
    (h : crawlLoop fetch fuel url acc = .done acc') : ∃ s, fetch url = .ok s := by
  cases fuel with
  | zero => exact CrawlResult.noConfusion h
  | succ n =>
    cases hf : fetch url with
    | error e =>
      rw [crawlLoop_succ_error fetch n url acc e hf] at h
      exact CrawlResult.noConfusion h
    | ok soup => exact ⟨soup, rfl⟩

/-!
Export pipeline.  Each `save_as_*` function (lines 130-204) wraps its
whole body in `try/except Exception`, logging and swallowing any failure,
so it always returns normally.  The fallible write of the artifact (file
open, `pdf.output`, `write_epub`) is modelled by `attemptWrite`, driven by
a per-format writability flag; the rendered content itself is not
modelled.  The value `.ok (some path)` means the artifact was written,
`.ok none` that the failure was caught and logged inside the writer; a
`.error` would mean an exception escaping to `main`'s top-level handler,
which by construction never happens.
-/

/-- Per-format writability of the output environment. -/
structure WriteEnv where
  txtOk : Bool
  pdfOk : Bool
  epubOk : Bool
  deriving DecidableEq

/-- Fallible artifact write: raises (`.error`) when the path is not
writable. -/
def attemptWrite (ok : Bool) (filename : String) : Except String String :=
  if ok then .ok filename else .error "unwritable path"

/-- Embedding of `save_as_txt` (lines 130-145). -/
def save_as_txt (ok : Bool) (title content filename : String) :
    Except String (Option String) :=
  match attemptWrite ok filename with
  | .ok p => .ok (some p)
  | .error _ => .ok none

/-- Embedding of `save_as_pdf` (lines 147-172). -/
def save_as_pdf (ok : Bool) (title content filename : String) :
    Except String (Option String) :=
  match attemptWrite ok filename with
  | .ok p => .ok (some p)
  | .error _ => .ok none

/-- Embedding of `save_as_epub` (lines 174-204). -/
def save_as_epub (ok : Bool) (title content filename : String) :
    Except String (Option String) :=
  match attemptWrite ok filename with
  | .ok p => .ok (some p)
  | .error _ => .ok none

/-- Embedding of `main`'s format dispatch (lines 332-342): the writers
requested by `choice` run in sequence inside `main`'s exception context;
an exception escaping one writer would skip the following ones.  Returns
the paths actually written. -/
def runExports (choice : String) (env : WriteEnv)
    (title content txtPath pdfPath epubPath : String) : Except String (List String) :=
  if choice = "1" then do
    let a ← save_as_txt env.txtOk title content txtPath
    pure a.toList
  else if choice = "2" then do
    let b ← save_as_pdf env.pdfOk title content pdfPath
    pure b.toList
  else if choice = "3" then do
    let c ← save_as_epub env.epubOk title content epubPath
    pure c.toList
  else if choice = "4" then do
    let a ← save_as_txt env.txtOk title content txtPath
    let b ← save_as_pdf env.pdfOk title content pdfPath
    let c ← save_as_epub env.epubOk title content epubPath
    pure (a.toList ++ b.toList ++ c.toList)
  else pure []

/-- C3: with all three formats requested (`choice = "4"`), the writers
are attempted independently: the run never aborts, exactly the formats
whose writes succeed produce artifacts (a PDF failure does not prevent
the TXT or EPUB artifacts), and no writer lets an exception escape. -/
theorem export_isolation (env : WriteEnv) (title content txtPath pdfPath epubPath : String) :
    runExports "4" env title content txtPath pdfPath epubPath =
      .ok ((if env.txtOk then [txtPath] else []) ++
           (if env.pdfOk then [pdfPath] else []) ++
           (if env.epubOk then [epubPath] else [])) ∧
    (∀ ok t c f, ∃ r, save_as_pdf ok t c f = .ok r) := by
  constructor
  · rcases env with ⟨a, b, d⟩
    cases a <;> cases b <;> cases d <;>
      simp [runExports, save_as_txt, save_as_pdf, save_as_epub, attemptWrite,
        Bind.bind, Except.bind, Pure.pure, Except.pure]
  · intro ok t c f
    cases ok <;> exact ⟨_, rfl⟩

/-!
Embedding of `main` (lines 291-349).  Interactive prompting
(`get_story_url`, `get_output_format`, `get_output_directory`'s parent
question), the polite `time.sleep(1)` and `os.makedirs` are outside the
model; the validated start URL, the format choice and the per-format
writability arrive as parameters.  `main` wraps everything in one
`try/except` that logs the exception and prints a single generic failure
message — modelled by `printedError`.  A crawl that exhausts its fuel
models the loop still running (`hung`); the run in that case never
reaches the export stage.  `os.path.join(a, b)` is modelled as
`a ++ "/" ++ b`, with the user's parent directory left implicit.
-/

structure MainResult where
  fetchTrace : List String
  writes : List String
  printedError : Bool
  hung : Bool
  deriving DecidableEq

/-- Export stage of `main` (lines 325-342): build the output directory
from the sanitized title, derive the three artifact paths, and dispatch
on the format choice.  An exception escaping `runExports` would be caught
by `main`'s top-level handler. -/
def mainExport (trace : List String) (title safeTitle fullStory choice : String)
    (env : WriteEnv) : MainResult :=
  match runExports choice env title fullStory
      (sanitize_filename title ++ "/" ++ safeTitle ++ ".txt")
      (sanitize_filename title ++ "/" ++ safeTitle ++ ".pdf")
      (sanitize_filename title ++ "/" ++ safeTitle ++ ".epub") with
  | .ok ws => ⟨trace, ws, false, false⟩
  | .error _ => ⟨trace, [], true, false⟩

/-- Embedding of `main`: fetch the start page once for the title, then
run the crawl loop from the same start URL, then export.  Any
`requests` exception propagates to the top-level handler
(`printedError`), and no artifact is written in that case. -/
def mainRun (fetch : String → Except String Soup) (fuel : Nat)
    (startUrl choice : String) (env : WriteEnv) : MainResult :=
  match fetch startUrl with
  | .error _ => ⟨[startUrl], [], true, false⟩
  | .ok soup0 =>
    let title := extract_title soup0
    let safeTitle := sanitize_filename title
    if startUrl = "" then
      mainExport [startUrl] title safeTitle "" choice env
    else
      match crawlLoop fetch fuel startUrl initAcc with
      | .fetchFail acc _ => ⟨startUrl :: acc.attempts, [], true, false⟩
      | .fuelOut acc => ⟨startUrl :: acc.attempts, [], false, true⟩
      | .done acc =>
        mainExport (startUrl :: acc.attempts) title safeTitle acc.fullStory choice env

theorem mainExport_fetchTrace (trace : List String)
    (title safeTitle fullStory choice : String) (env : WriteEnv) :
    (mainExport trace title safeTitle fullStory choice env).fetchTrace = trace := by
  unfold mainExport
  split <;> rfl

/-- C6: a failed page fetch is fatal.  If the crawl loop hits a fetch
failure at URL `u`, the whole run ends with the generic failure message
printed (`printedError`), no artifact is written, the failing URL is the
last fetch attempted, and it was attempted exactly once (no retry). -/
theorem fetch_failure_fatal (fetch : String → Except String Soup) (fuel : Nat)
    (start choice : String) (env : WriteEnv) (acc : CrawlAcc) (u : String)
    (hne : start ≠ "") (h : crawlLoop fetch fuel start initAcc = .fetchFail acc u) :
    (mainRun fetch fuel start choice env).printedError = true ∧
    (mainRun fetch fuel start choice env).writes = [] ∧
    (mainRun fetch fuel start choice env).fetchTrace.getLast? = some u ∧
    (mainRun fetch fuel start choice env).fetchTrace.count u = 1 := by
  obtain ⟨⟨e, herr⟩, pre, hatt, hhead, hpre⟩ :=
    crawlLoop_fetchFail_ext fetch fuel start initAcc acc u h
  simp only [initAcc, List.nil_append] at hatt
  cases hfs : fetch start with
  | error e0 =>
    have hustart : u = start := by
      cases pre with
      | nil => simpa using hhead
      | cons v t =>
        obtain ⟨s, hs⟩ := hpre v (by simp)
        have hv : v = start := by simpa using hhead
        rw [hv, hfs] at hs
        exact Except.noConfusion hs
    subst hustart
    simp [mainRun, hfs]
  | ok soup0 =>
    have hmain : mainRun fetch fuel start choice env =
        ⟨start :: acc.attempts, [], true, false⟩ := by
      simp [mainRun, hfs, hne, h]
    have hustart : u ≠ start := by
      intro hq
      rw [hq, hfs] at herr
      exact Except.noConfusion herr
    have hnotpre : u ∉ pre := by
      intro hq
      obtain ⟨s, hs⟩ := hpre u hq
      rw [hs] at herr
      exact Except.noConfusion herr
    refine ⟨by rw [hmain], by rw [hmain], ?_, ?_⟩
    · rw [hmain]
      show (start :: acc.attempts).getLast? = some u
      rw [hatt, ← List.cons_append, List.getLast?_concat]
    · rw [hmain]
      show (start :: acc.attempts).count u = 1
      rw [hatt, ← List.cons_append, List.count_append]
      have hzero : (start :: pre).count u = 0 := by
        rw [List.count_eq_zero, List.mem_cons]
        push_neg
        exact ⟨hustart, hnotpre⟩
      rw [hzero]
      simp

/-- Two-page story whose second page's fetch raises. -/
def u1 : String := "https://www.literotica.com/s/two-pages"

/-- URL of the second page of the concrete two-page story. -/
def u2 : String := "https://www.literotica.com/s/two-pages?page=2"

/-- Network oracle: page 1 links to page 2, fetching page 2 raises. -/
def fetchBroken : String → Except String Soup :=
  fun u => if u = u1 then .ok ⟨some ["One"], some (some u2), some "T"⟩
           else .error "connection reset"

/-- Witness for C6 at the concrete broken two-page site. -/
theorem fetch_failure_fatal_witness :
    (mainRun fetchBroken 5 u1 "4" ⟨true, true, true⟩).printedError = true ∧
    (mainRun fetchBroken 5 u1 "4" ⟨true, true, true⟩).writes = [] ∧
    (mainRun fetchBroken 5 u1 "4" ⟨true, true, true⟩).fetchTrace.getLast? = some u2 ∧
    (mainRun fetchBroken 5 u1 "4" ⟨true, true, true⟩).fetchTrace.count u2 = 1 :=
  fetch_failure_fatal fetchBroken 5 u1 "4" ⟨true, true, true⟩
    ⟨"One\n\n", [(u1, "One")], [u1, u2]⟩ u2 (by decide) (by decide)

/-- Every path reported written by `runExports` is one of the three
requested artifact paths. -/
theorem runExports_writes_sub (choice : String) (env : WriteEnv)
    (t c p1 p2 p3 : String) (ws : List String)
    (h : runExports choice env t c p1 p2 p3 = .ok ws) :
    ∀ w ∈ ws, w = p1 ∨ w = p2 ∨ w = p3 := by
  rcases env with ⟨a, b, d⟩
  cases a <;> cases b <;> cases d <;>
    · unfold runExports at h
      split_ifs at h <;>
        simp_all [save_as_txt, save_as_pdf, save_as_epub, attemptWrite,
          Bind.bind, Except.bind, Pure.pure, Except.pure] <;>
        (subst h; intro w hw; simp at hw; tauto)

/-- Every path written by the export stage is one of the three paths
derived from the sanitized title. -/
theorem mainExport_writes_sub (trace : List String)
    (title safeTitle fullStory choice : String) (env : WriteEnv) :
    ∀ w ∈ (mainExport trace title safeTitle fullStory choice env).writes,
      w = sanitize_filename title ++ "/" ++ safeTitle ++ ".txt" ∨
      w = sanitize_filename title ++ "/" ++ safeTitle ++ ".pdf" ∨
      w = sanitize_filename title ++ "/" ++ safeTitle ++ ".epub" := by
  intro w hw
  unfold mainExport at hw
  cases hr : runExports choice env title fullStory
      (sanitize_filename title ++ "/" ++ safeTitle ++ ".txt")
      (sanitize_filename title ++ "/" ++ safeTitle ++ ".pdf")
      (sanitize_filename title ++ "/" ++ safeTitle ++ ".epub") with
  | error e => rw [hr] at hw; simp at hw
  | ok ws =>
    rw [hr] at hw
    exact runExports_writes_sub choice env title fullStory _ _ _ ws hr w hw

theorem sanitize_untitled : sanitize_filename "Untitled Story" = "Untitled Story" := by
  decide

/-- C9: when the title landmark is absent, `extract_title` returns the
fixed placeholder `"Untitled Story"`, and every artifact path the run
writes derives from that placeholder after sanitization. -/
theorem fallback_title_spec (fetch : String → Except String Soup) (fuel : Nat)
    (start choice : String) (env : WriteEnv) (s0 : Soup)
    (h0 : fetch start = .ok s0) (h1 : s0.titleTag = none) :
    extract_title s0 = "Untitled Story" ∧
    ∀ w ∈ (mainRun fetch fuel start choice env).writes,
      w ∈ ["Untitled Story/Untitled Story.txt", "Untitled Story/Untitled Story.pdf",
        "Untitled Story/Untitled Story.epub"] := by
  have htitle : extract_title s0 = "Untitled Story" := by
    unfold extract_title
    rw [h1]
  refine ⟨htitle, ?_⟩
  have hpaths : ∀ trace fullStory,
      ∀ w ∈ (mainExport trace (extract_title s0) (sanitize_filename (extract_title s0))
          fullStory choice env).writes,
        w ∈ ["Untitled Story/Untitled Story.txt", "Untitled Story/Untitled Story.pdf",
          "Untitled Story/Untitled Story.epub"] := by
    intro trace fullStory w hw
    have h' := mainExport_writes_sub trace (extract_title s0)
      (sanitize_filename (extract_title s0)) fullStory choice env w hw
    rw [htitle, sanitize_untitled] at h'
    have e1 : "Untitled Story" ++ "/" ++ "Untitled Story" ++ ".txt"
        = "Untitled Story/Untitled Story.txt" := by decide
    have e2 : "Untitled Story" ++ "/" ++ "Untitled Story" ++ ".pdf"
        = "Untitled Story/Untitled Story.pdf" := by decide
    have e3 : "Untitled Story" ++ "/" ++ "Untitled Story" ++ ".epub"
        = "Untitled Story/Untitled Story.epub" := by decide
    rw [e1, e2, e3] at h'
    simpa using h'
  intro w hw
  unfold mainRun at hw
  rw [h0] at hw
  by_cases hs : start = ""
  · simp only [hs, if_pos rfl] at hw
    exact hpaths [start] "" w (by simpa [hs] using hw)
  · simp only [if_neg hs] at hw
    cases hc : crawlLoop fetch fuel start initAcc with
    | fetchFail acc fu => rw [hc] at hw; simp at hw
    | fuelOut acc => rw [hc] at hw; simp at hw
    | done acc =>
      rw [hc] at hw
      exact hpaths (start :: acc.attempts) acc.fullStory w hw

/-- Concrete site with no title landmark. -/
def fetchNoTitle : String → Except String Soup :=
  fun _ => .ok ⟨some ["Body"], none, none⟩

/-- Witness for C9 at the concrete title-less site: the placeholder title
and, for the TXT artifact actually written, its placeholder-derived
path. -/
theorem fallback_title_spec_witness :
    extract_title ⟨some ["Body"], none, none⟩ = "Untitled Story" ∧
    "Untitled Story/Untitled Story.txt" ∈
      ["Untitled Story/Untitled Story.txt", "Untitled Story/Untitled Story.pdf",
        "Untitled Story/Untitled Story.epub"] :=
  ⟨(fallback_title_spec fetchNoTitle 3 u1 "4" ⟨true, true, true⟩
      ⟨some ["Body"], none, none⟩ rfl rfl).1,
   (fallback_title_spec fetchNoTitle 3 u1 "4" ⟨true, true, true⟩
      ⟨some ["Body"], none, none⟩ rfl rfl).2
     "Untitled Story/Untitled Story.txt" (by decide)⟩

/-- C10: the start URL is fetched once for the title and again as the
loop's first iteration, so a successful `N`-page crawl issues `N + 1`
fetches and the first two entries of the fetch trace are both the start
URL. -/
theorem start_url_fetched_twice (fetch : String → Except String Soup) (fuel : Nat)
    (start choice : String) (env : WriteEnv) (acc : CrawlAcc)
    (hne : start ≠ "") (h : crawlLoop fetch fuel start initAcc = .done acc) :
    (mainRun fetch fuel start choice env).fetchTrace = start :: acc.attempts ∧
    (mainRun fetch fuel start choice env).fetchTrace.take 2 = [start, start] ∧
    (mainRun fetch fuel start choice env).fetchTrace.length = acc.pages.length + 1 := by
  obtain ⟨s0, hfs⟩ := crawlLoop_done_fetch_ok fetch fuel start initAcc acc h
  obtain ⟨ps, hpsne, hhead, hp, ha, -⟩ := crawlLoop_done_ext fetch fuel start initAcc acc h
  simp only [initAcc, List.nil_append] at hp ha
  have htr : (mainRun fetch fuel start choice env).fetchTrace = start :: acc.attempts := by
    unfold mainRun
    rw [hfs]
    simp only [if_neg hne]
    rw [h, mainExport_fetchTrace]
  refine ⟨htr, ?_, ?_⟩
  · rw [htr, ha]
    cases ps with
    | nil => exact absurd rfl hpsne
    | cons p t =>
      have hpfst : p.1 = start := by simpa using hhead
      simp [hpfst]
  · rw [htr, ha, hp]
    simp

/-- Network oracle for an intact two-page story. -/
def fetchTwo : String → Except String Soup :=
  fun u => if u = u1 then .ok ⟨some ["One"], some (some u2), some "T"⟩
           else .ok ⟨some ["Two"], none, some "T"⟩

/-- Witness for C10 at the concrete two-page site: 2 pages, 3 fetches,
the first page fetched twice. -/
theorem start_url_fetched_twice_witness :
    (mainRun fetchTwo 5 u1 "1" ⟨true, true, true⟩).fetchTrace = u1 :: [u1, u2] ∧
    (mainRun fetchTwo 5 u1 "1" ⟨true, true, true⟩).fetchTrace.take 2 = [u1, u1] ∧
    (mainRun fetchTwo 5 u1 "1" ⟨true, true, true⟩).fetchTrace.length =
      ([(u1, "One"), (u2, "Two")] : List (String × String)).length + 1 :=
  start_url_fetched_twice fetchTwo 5 u1 "1" ⟨true, true, true⟩
    ⟨"One\n\nTwo\n\n", [(u1, "One"), (u2, "Two")], [u1, u2]⟩ (by decide) (by decide)

/-!
URL validator (`is_valid_literotica_url`, lines 208-231).  The regex
`^https:\/\/www\.literotica\.com\/s\/[a-zA-Z0-9-]+` used with `re.match`
accepts exactly the strings that start with the literal prefix
`https://www.literotica.com/s/` followed by at least one character from
`[a-zA-Z0-9-]` (the rest of the string is unconstrained).  The HEAD probe
is an oracle `String → Except String Nat`; `.error` models a raised
`requests` exception (including a timeout), which the source catches.
The embedding returns the boolean result paired with the number of
network calls issued, to express the no-network short-circuit; the
function is total, so no input makes it raise. -/

/-- Character class `[a-zA-Z0-9-]` of the story-URL regex. -/
def isSlugChar (c : Char) : Bool :=
  c.isAlpha || c.isDigit || c == '-'

/-- Structural regex match of `re.match` against the story pattern. -/
def reMatchStoryPattern (url : String) : Bool :=
  "https://www.literotica.com/s/".data.isPrefixOf url.data &&
    (match url.data.drop "https://www.literotica.com/s/".data.length with
     | [] => false
     | c :: _ => isSlugChar c)

/-- Embedding of `is_valid_literotica_url`: pattern mismatch returns
`false` with 0 probes; otherwise one HEAD probe is issued and only status
200 yields `true` — a non-success status or a raised transport error
yields `false`. -/
def is_valid_literotica_url (headProbe : String → Except String Nat) (url : String) :
    Bool × Nat :=
  if reMatchStoryPattern url then
    match headProbe url with
    | .ok status => if status == 200 then (true, 1) else (false, 1)
    | .error _ => (false, 1)
  else (false, 0)

/-- C4: the URL validator never raises (it is a total boolean function of
the probe oracle): on structural mismatch it returns `false` with no
network call; on structural match it issues exactly one bounded probe and
returns `true` precisely when the probe reports success status 200 —
every transport error and every non-success status gives `false`. -/
theorem url_validator_spec (headProbe : String → Except String Nat) (url : String) :
    (reMatchStoryPattern url = false →
      is_valid_literotica_url headProbe url = (false, 0)) ∧
    (reMatchStoryPattern url = true →
      (is_valid_literotica_url headProbe url).2 = 1 ∧
      ((is_valid_literotica_url headProbe url).1 = true ↔ headProbe url = .ok 200)) := by
  constructor
  · intro hm
    simp [is_valid_literotica_url, hm]
  · intro hm
    unfold is_valid_literotica_url
    rw [if_pos hm]
    cases hp : headProbe url with
    | error e => simp
    | ok status =>
      by_cases hs : status = 200
      · simp [hs]
      · simp [hs]

/-- Witness for C4: a non-matching URL short-circuits with no probe; a
matching URL with a 200-probe validates with exactly one probe. -/
theorem url_validator_spec_witness :
    is_valid_literotica_url (fun _ => .ok 200) "gopher://example" = (false, 0) ∧
    (is_valid_literotica_url (fun _ => .ok 200) "https://www.literotica.com/s/a").1 = true ∧
    (is_valid_literotica_url (fun _ => .ok 200) "https://www.literotica.com/s/a").2 = 1 :=
  ⟨(url_validator_spec (fun _ => .ok 200) "gopher://example").1 (by decide),
   ((url_validator_spec (fun _ => .ok 200) "https://www.literotica.com/s/a").2
      (by decide)).2.mpr rfl,
   ((url_validator_spec (fun _ => .ok 200) "https://www.literotica.com/s/a").2
      (by decide)).1⟩

/-!
Hyphenation repair (`clean_hyphenation`, pdf_to_epub.py lines 25-31):
`re.sub(r"(\w+)-\s+(\w+)", r"\1\2", para)` applied to each paragraph of
the list in order.  The regex engine scans left to right; because `\w`
and `-`, and `\s` and `\w`, are disjoint classes, the greedy quantifiers
never backtrack, so a match at a position is exactly: a maximal non-empty
word run, a hyphen, a maximal non-empty whitespace run, a non-empty word
run; the replacement drops the hyphen and the whitespace.  Scanning
resumes after each match (non-overlapping), else advances one character.
`\w` is modelled as ASCII `[A-Za-z0-9_]`. -/

/-- Regex class `\w`, restricted to ASCII. -/
def isWordChar (c : Char) : Bool :=
  c.isAlphanum || c == '_'

/-- Attempt to match `(\w+)-\s+(\w+)` at the head of the list, returning
the replacement (the two captured fragments concatenated) and the rest of
the input after the match. -/
def matchHyphAt (l : List Char) : Option (List Char × List Char) :=
  if (l.takeWhile isWordChar).isEmpty then none
  else
    match l.dropWhile isWordChar with
    | '-' :: l2 =>
      if (l2.takeWhile pyIsSpace).isEmpty then none
      else
        if ((l2.dropWhile pyIsSpace).takeWhile isWordChar).isEmpty then none
        else some (l.takeWhile isWordChar ++ (l2.dropWhile pyIsSpace).takeWhile isWordChar,
          (l2.dropWhile pyIsSpace).dropWhile isWordChar)
    | _ => none

/-- Left-to-right non-overlapping substitution pass of `re.sub` for the
hyphenation pattern.  The fuel only bounds the recursion; every call site
supplies the input length, which one-character-minimum consumption makes
sufficient. -/
def reSubHyph : Nat → List Char → List Char
  | 0, l => l
  | _ + 1, [] => []
  | fuel + 1, x :: xs =>
    match matchHyphAt (x :: xs) with
    | some (rep, rest) => rep ++ reSubHyph fuel rest
    | none => x :: reSubHyph fuel xs

/-- One paragraph's repair: `re.sub(r"(\w+)-\s+(\w+)", r"\1\2", para)`. -/
def pySubHyphen (p : String) : String :=
  String.mk (reSubHyph p.data.length p.data)

/-- Embedding of `clean_hyphenation`: the loop
`for para in paragraphs: cleaned.append(re.sub(...))`. -/
def clean_hyphenation (paragraphs : List String) : List String :=
  paragraphs.foldl (fun cleaned para => cleaned ++ [pySubHyphen para]) []

/-- C5: the repair maps each paragraph independently and in order (the
append loop is the map of the per-paragraph substitution), preserves the
sequence length, and repairs the spec's concrete example. -/
theorem clean_hyphenation_spec (ps : List String) :
    clean_hyphenation ps = ps.map pySubHyphen ∧
    (clean_hyphenation ps).length = ps.length ∧
    pySubHyphen "The inter- national treaty" = "The international treaty" := by
  have hfold : ∀ (l acc : List String),
      l.foldl (fun cleaned para => cleaned ++ [pySubHyphen para]) acc =
        acc ++ l.map pySubHyphen := by
    intro l
    induction l with
    | nil => intro acc; simp
    | cons p t ih => intro acc; simp [ih]
  have h1 : clean_hyphenation ps = ps.map pySubHyphen := by
    have := hfold ps []
    simpa [clean_hyphenation] using this
  refine ⟨h1, ?_, by decide⟩
  rw [h1]
  simp

end Books
